import Mathlib

/-!
Shallow embedding of `src/client/build.py`, the build orchestrator of the
icebreaker repository.

The script is a linear sequence of side-effecting steps:

  1. `run_command(["npx", "tsc", "-b"])` — type-check; on non-zero
     returncode print `Command failed: <cmdline>` to stderr and
     `sys.exit(returncode)`.
  2. `run_command(["npx", "vite", "build"])` — bundler; same rule.
  3. `if SERVER_STATIC_DIR.exists(): shutil.rmtree(SERVER_STATIC_DIR)`.
  4. `shutil.copytree(DIST_DIR, SERVER_STATIC_DIR)`; then print
     `Build complete.`.

We embed this as a deterministic small-step machine so that intermediate
states (in particular the state between the recursive delete and the
recursive copy) are first-class.  The filesystem is abstracted to the two
directories the script touches: the build-output directory `client/dist`
and the destination `server/static`.  The environment supplies what the
external world decides: the shell returncodes of the two subprocess calls,
the contents vite leaves in `dist`, and whether `shutil.rmtree` /
`shutil.copytree` raise an `OSError` (which the script does not catch; an
uncaught exception terminates CPython with exit status 1).
-/

/-- Contents of a directory: a finite set of files, each a relative path
(list of path components) paired with its byte contents. -/
abbrev Dir := List (List String × String)

/-- The slice of the filesystem the script touches.  `none` means the
directory does not exist. -/
structure FS where
  dist : Option Dir
  static : Option Dir
deriving DecidableEq, Repr

/-- A filesystem error: the message of the `OSError` raised by a
`shutil` operation. -/
abbrev FsErr := String

/-- Observable events of a run, in order of occurrence. -/
inductive Ev where
  /-- A line printed to stdout. -/
  | out (line : String)
  /-- A line printed to stderr (`file=sys.stderr`). -/
  | errOut (line : String)
  /-- A `subprocess.run(cmdline, shell=useShell)` invocation. -/
  | exec (cmdline : String) (useShell : Bool)
  /-- A `shutil.rmtree(SERVER_STATIC_DIR)` call. -/
  | removeTree
  /-- A `shutil.copytree(DIST_DIR, SERVER_STATIC_DIR)` call. -/
  | copyTree
deriving DecidableEq, Repr

/-- The external world of one run: the shell returncodes of the two
subprocess calls (a shell exit status is 0–255), the contents vite's
production build leaves in `dist`, and the filesystem errors, if any,
that the recursive delete and the recursive copy raise. -/
structure Env where
  tscRc : Fin 256
  viteRc : Fin 256
  distAfterVite : Dir
  rmtreeErr : Option FsErr
  copyErr : Option FsErr
deriving DecidableEq

/-- Embedding of `run_command(cmd)`: prints `Running: <joined>`, executes
the space-joined command line through the system shell
(`subprocess.run(" ".join(cmd), shell=True)`), and on a non-zero
returncode prints `Command failed: <joined>` to stderr and calls
`sys.exit(returncode)`.  Returns the emitted events and `some rc` when
`sys.exit(rc)` was called, `none` on success. -/
def run_command (cmd : List String) (rc : Fin 256) : List Ev × Option (Fin 256) :=
  let line := String.intercalate " " cmd
  if rc.val ≠ 0 then
    ([Ev.out ("Running: " ++ line), Ev.exec line true,
      Ev.errOut ("Command failed: " ++ line)], some rc)
  else
    ([Ev.out ("Running: " ++ line), Ev.exec line true], none)

/-- Program counter of the orchestrator: the point in `main` reached so
far, or how the process terminated. -/
inductive Pc where
  /-- About to run the type-check step. -/
  | start
  /-- Type-check succeeded; about to run the bundler step. -/
  | afterTsc
  /-- Bundler succeeded (`dist` now holds the build output); about to
  conditionally delete the destination directory. -/
  | afterVite
  /-- Destination directory removed (or it did not exist); about to
  recursively copy `dist` to the destination. -/
  | afterRm
  /-- `main` completed normally (`Build complete.` printed). -/
  | done
  /-- `sys.exit(rc)` was called after a subprocess failed. -/
  | failedCmd (rc : Fin 256)
  /-- An uncaught filesystem exception terminated the process. -/
  | raised (e : FsErr)
deriving DecidableEq, Repr

/-- A machine configuration: program counter, filesystem, and the events
emitted so far. -/
structure Config where
  pc : Pc
  fs : FS
  evs : List Ev
deriving DecidableEq, Repr

/-- One step of the orchestrator.  `none` means the configuration is
terminal (the process has ended). -/
def step (env : Env) (c : Config) : Option Config :=
  match c.pc with
  | Pc.start =>
      let p := run_command ["npx", "tsc", "-b"] env.tscRc
      match p.2 with
      | some rc => some { c with pc := Pc.failedCmd rc, evs := c.evs ++ p.1 }
      | none => some { c with pc := Pc.afterTsc, evs := c.evs ++ p.1 }
  | Pc.afterTsc =>
      let p := run_command ["npx", "vite", "build"] env.viteRc
      match p.2 with
      | some rc => some { c with pc := Pc.failedCmd rc, evs := c.evs ++ p.1 }
      | none => some { pc := Pc.afterVite,
                       fs := { c.fs with dist := some env.distAfterVite },
                       evs := c.evs ++ p.1 }
  | Pc.afterVite =>
      if (c.fs.static).isSome then
        match env.rmtreeErr with
        | some e => some { c with pc := Pc.raised e, evs := c.evs ++ [Ev.removeTree] }
        | none => some { pc := Pc.afterRm, fs := { c.fs with static := none },
                         evs := c.evs ++ [Ev.removeTree] }
      else
        some { c with pc := Pc.afterRm }
  | Pc.afterRm =>
      match env.copyErr with
      | some e => some { c with pc := Pc.raised e, evs := c.evs ++ [Ev.copyTree] }
      | none =>
          match c.fs.dist with
          | none => some { c with pc := Pc.raised "copytree: source directory missing",
                                  evs := c.evs ++ [Ev.copyTree] }
          | some d => some { pc := Pc.done, fs := { c.fs with static := some d },
                             evs := c.evs ++ [Ev.copyTree, Ev.out "Build complete."] }
  | Pc.done => none
  | Pc.failedCmd _ => none
  | Pc.raised _ => none

/-- Run the machine for at most `n` steps (it halts in at most 4). -/
def runFrom (env : Env) : Nat → Config → Config
  | 0, c => c
  | n + 1, c =>
      match step env c with
      | none => c
      | some c2 => runFrom env n c2

/-- The initial configuration of a run starting from filesystem `fs0`. -/
def initConfig (fs0 : FS) : Config := { pc := Pc.start, fs := fs0, evs := [] }

/-- The final configuration of a run of `main` in environment `env`
starting from filesystem `fs0`.  Four steps always reach a terminal
configuration (see `result_terminal`). -/
def result (env : Env) (fs0 : FS) : Config := runFrom env 4 (initConfig fs0)

/-- The process exit code of a run: 0 on normal completion, the
`sys.exit` argument after a subprocess failure, and 1 when an uncaught
exception terminates CPython.  (The catch-all branch is unreachable:
`result_terminal`.) -/
def finalExit (env : Env) (fs0 : FS) : Nat :=
  match (result env fs0).pc with
  | Pc.done => 0
  | Pc.failedCmd rc => rc.val
  | Pc.raised _ => 1
  | _ => 0

/-- The command line of the type-check step, as joined by `run_command`. -/
lemma tsc_line : String.intercalate " " ["npx", "tsc", "-b"] = "npx tsc -b" := rfl

lemma vite_line : String.intercalate " " ["npx", "vite", "build"] = "npx vite build" := rfl

lemma result_tsc_fail (env : Env) (fs0 : FS) (h : env.tscRc.val ≠ 0) :
    result env fs0 =
      { pc := Pc.failedCmd env.tscRc, fs := fs0,
        evs := [Ev.out "Running: npx tsc -b", Ev.exec "npx tsc -b" true,
                Ev.errOut "Command failed: npx tsc -b"] } := by
  simp [result, runFrom, initConfig, step, run_command, h, tsc_line]

lemma result_vite_fail (env : Env) (fs0 : FS) (h0 : env.tscRc.val = 0)
    (h1 : env.viteRc.val ≠ 0) :
    result env fs0 =
      { pc := Pc.failedCmd env.viteRc, fs := fs0,
        evs := [Ev.out "Running: npx tsc -b", Ev.exec "npx tsc -b" true,
                Ev.out "Running: npx vite build", Ev.exec "npx vite build" true,
                Ev.errOut "Command failed: npx vite build"] } := by
  simp [result, runFrom, initConfig, step, run_command, h0, h1, tsc_line, vite_line]

lemma result_rm_fail (env : Env) (fs0 : FS) (d : Dir) (e : FsErr)
    (h0 : env.tscRc.val = 0) (h1 : env.viteRc.val = 0)
    (hs : fs0.static = some d) (hr : env.rmtreeErr = some e) :
    result env fs0 =
      { pc := Pc.raised e,
        fs := { dist := some env.distAfterVite, static := some d },
        evs := [Ev.out "Running: npx tsc -b", Ev.exec "npx tsc -b" true,
                Ev.out "Running: npx vite build", Ev.exec "npx vite build" true,
                Ev.removeTree] } := by
  simp [result, runFrom, initConfig, step, run_command, h0, h1, hs, hr, tsc_line, vite_line]

lemma result_copy_fail_static_some (env : Env) (fs0 : FS) (d : Dir) (e : FsErr)
    (h0 : env.tscRc.val = 0) (h1 : env.viteRc.val = 0)
    (hs : fs0.static = some d) (hr : env.rmtreeErr = none) (hc : env.copyErr = some e) :
    result env fs0 =
      { pc := Pc.raised e,
        fs := { dist := some env.distAfterVite, static := none },
        evs := [Ev.out "Running: npx tsc -b", Ev.exec "npx tsc -b" true,
                Ev.out "Running: npx vite build", Ev.exec "npx vite build" true,
                Ev.removeTree, Ev.copyTree] } := by
  simp [result, runFrom, initConfig, step, run_command, h0, h1, hs, hr, hc, tsc_line, vite_line]

lemma result_copy_fail_static_none (env : Env) (fs0 : FS) (e : FsErr)
    (h0 : env.tscRc.val = 0) (h1 : env.viteRc.val = 0)
    (hs : fs0.static = none) (hc : env.copyErr = some e) :
    result env fs0 =
      { pc := Pc.raised e,
        fs := { dist := some env.distAfterVite, static := none },
        evs := [Ev.out "Running: npx tsc -b", Ev.exec "npx tsc -b" true,
                Ev.out "Running: npx vite build", Ev.exec "npx vite build" true,
                Ev.copyTree] } := by
  simp [result, runFrom, initConfig, step, run_command, h0, h1, hs, hc, tsc_line, vite_line]

lemma result_ok_static_some (env : Env) (fs0 : FS) (d : Dir)
    (h0 : env.tscRc.val = 0) (h1 : env.viteRc.val = 0)
    (hs : fs0.static = some d) (hr : env.rmtreeErr = none) (hc : env.copyErr = none) :
    result env fs0 =
      { pc := Pc.done,
        fs := { dist := some env.distAfterVite, static := some env.distAfterVite },
        evs := [Ev.out "Running: npx tsc -b", Ev.exec "npx tsc -b" true,
                Ev.out "Running: npx vite build", Ev.exec "npx vite build" true,
                Ev.removeTree, Ev.copyTree, Ev.out "Build complete."] } := by
  simp [result, runFrom, initConfig, step, run_command, h0, h1, hs, hr, hc, tsc_line, vite_line]

lemma result_ok_static_none (env : Env) (fs0 : FS)
    (h0 : env.tscRc.val = 0) (h1 : env.viteRc.val = 0)
    (hs : fs0.static = none) (hc : env.copyErr = none) :
    result env fs0 =
      { pc := Pc.done,
        fs := { dist := some env.distAfterVite, static := some env.distAfterVite },
        evs := [Ev.out "Running: npx tsc -b", Ev.exec "npx tsc -b" true,
                Ev.out "Running: npx vite build", Ev.exec "npx vite build" true,
                Ev.copyTree, Ev.out "Build complete."] } := by
  simp [result, runFrom, initConfig, step, run_command, h0, h1, hs, hc, tsc_line, vite_line]

/-- Every run halts within the four-step fuel bound: the final
configuration is normal completion, a `sys.exit` after a failed
subprocess, or an uncaught filesystem exception. -/
lemma result_terminal (env : Env) (fs0 : FS) :
    (result env fs0).pc = Pc.done ∨
      (∃ rc, (result env fs0).pc = Pc.failedCmd rc) ∨
      (∃ e, (result env fs0).pc = Pc.raised e) := by
  by_cases h0 : env.tscRc.val = 0
  · by_cases h1 : env.viteRc.val = 0
    · rcases hs : fs0.static with _ | d
      · rcases hc : env.copyErr with _ | e
        · exact Or.inl (by rw [result_ok_static_none env fs0 h0 h1 hs hc])
        · exact Or.inr (Or.inr ⟨e, by rw [result_copy_fail_static_none env fs0 e h0 h1 hs hc]⟩)
      · rcases hr : env.rmtreeErr with _ | e
        · rcases hc : env.copyErr with _ | e
          · exact Or.inl (by rw [result_ok_static_some env fs0 d h0 h1 hs hr hc])
          · exact Or.inr (Or.inr ⟨e, by rw [result_copy_fail_static_some env fs0 d e h0 h1 hs hr hc]⟩)
        · exact Or.inr (Or.inr ⟨e, by rw [result_rm_fail env fs0 d e h0 h1 hs hr]⟩)
    · exact Or.inr (Or.inl ⟨env.viteRc, by rw [result_vite_fail env fs0 h0 h1]⟩)
  · exact Or.inr (Or.inl ⟨env.tscRc, by rw [result_tsc_fail env fs0 h0]⟩)

/-- Witness fixture: an environment in which both subprocesses succeed
and no filesystem error occurs. -/
def envOk : Env :=
  { tscRc := 0, viteRc := 0,
    distAfterVite := [(["index.html"], "<html>"), (["assets", "app.js"], "js")],
    rmtreeErr := none, copyErr := none }

/-- Witness fixture: the type-check step exits with status 2. -/
def envTscFail : Env := { envOk with tscRc := 2 }

/-- Witness fixture: the bundler step exits with status 3. -/
def envViteFail : Env := { envOk with viteRc := 3 }

/-- Witness fixture: the recursive delete raises an `OSError`. -/
def envRmFail : Env := { envOk with rmtreeErr := some "rmtree: permission denied" }

/-- Witness fixture: neither directory exists before the run. -/
def fsFresh : FS := { dist := none, static := none }

/-- Witness fixture: the destination exists with stale prior contents. -/
def fsStale : FS := { dist := none, static := some [(["old.html"], "stale")] }

/-- On every normally completed run, both tracked directories hold
exactly the bundler's output as it stood at the moment of copy. -/
lemma result_done_fs (env : Env) (fs0 : FS)
    (h : (result env fs0).pc = Pc.done) :
    (result env fs0).fs =
      { dist := some env.distAfterVite, static := some env.distAfterVite } := by
  by_cases h0 : env.tscRc.val = 0
  · by_cases h1 : env.viteRc.val = 0
    · rcases hs : fs0.static with _ | d
      · rcases hc : env.copyErr with _ | e
        · rw [result_ok_static_none env fs0 h0 h1 hs hc]
        · rw [result_copy_fail_static_none env fs0 e h0 h1 hs hc] at h
          simp at h
      · rcases hr : env.rmtreeErr with _ | e
        · rcases hc : env.copyErr with _ | e
          · rw [result_ok_static_some env fs0 d h0 h1 hs hr hc]
          · rw [result_copy_fail_static_some env fs0 d e h0 h1 hs hr hc] at h
            simp at h
        · rw [result_rm_fail env fs0 d e h0 h1 hs hr] at h
          simp at h
    · rw [result_vite_fail env fs0 h0 h1] at h
      simp at h
  · rw [result_tsc_fail env fs0 h0] at h
    simp at h

/-- Claim C1: for every run in which both external steps succeed (the
machine reaches normal completion), the destination static directory
equals the build-output directory as it stood at the moment of copy —
same file set and contents, and nothing else. -/
theorem C1_dest_equals_build_output (env : Env) (fs0 : FS)
    (h : (result env fs0).pc = Pc.done) :
    (result env fs0).fs.static = (result env fs0).fs.dist ∧
    (result env fs0).fs.static = some env.distAfterVite := by
  rw [result_done_fs env fs0 h]
  exact ⟨rfl, rfl⟩

/-- Witness for C1 at a concrete successful run over a stale destination. -/
theorem C1_witness :
    (result envOk fsStale).pc = Pc.done ∧
    ((result envOk fsStale).fs.static = (result envOk fsStale).fs.dist ∧
     (result envOk fsStale).fs.static = some envOk.distAfterVite) :=
  ⟨by decide, C1_dest_equals_build_output envOk fsStale (by decide)⟩

/-- Counterexample fixture for C2: both subprocesses succeed but the
recursive copy raises a filesystem error, so the process dies with the
uncaught-exception status 1. -/
def c2Env : Env :=
  { tscRc := 0, viteRc := 0, distAfterVite := [(["index.html"], "<html>")],
    rmtreeErr := none, copyErr := some "copytree: no space left on device" }

/-- Claim C2, counterexample: in a run where both external steps exit 0
but `shutil.copytree` raises, the exit code is 1, not 0 — so exit code 0
is not equivalent to both steps succeeding over all runs. -/
theorem C2_counterexample :
    c2Env.tscRc.val = 0 ∧ c2Env.viteRc.val = 0 ∧ finalExit c2Env fsFresh ≠ 0 := by
  decide

/-- Claim C2, amended: for every run in which the recursive delete and
the recursive copy raise no filesystem error, the process exit code is 0
iff both external steps exited with code 0. -/
theorem C2_exit_zero_iff_steps_ok (env : Env) (fs0 : FS)
    (hr : env.rmtreeErr = none) (hc : env.copyErr = none) :
    finalExit env fs0 = 0 ↔ env.tscRc.val = 0 ∧ env.viteRc.val = 0 := by
  by_cases h0 : env.tscRc.val = 0
  · by_cases h1 : env.viteRc.val = 0
    · rcases hs : fs0.static with _ | d
      · simp [finalExit, result_ok_static_none env fs0 h0 h1 hs hc, h0, h1]
      · simp [finalExit, result_ok_static_some env fs0 d h0 h1 hs hr hc, h0, h1]
    · simp [finalExit, result_vite_fail env fs0 h0 h1, h0, h1]
  · simp [finalExit, result_tsc_fail env fs0 h0, h0]

/-- Witness for the amended C2 at a concrete error-free run. -/
theorem C2_witness :
    envOk.rmtreeErr = none ∧ envOk.copyErr = none ∧
    (finalExit envOk fsStale = 0 ↔ envOk.tscRc.val = 0 ∧ envOk.viteRc.val = 0) :=
  ⟨rfl, rfl, C2_exit_zero_iff_steps_ok envOk fsStale rfl rfl⟩

/-- Claim C3: if the type-check step exits non-zero, the bundler is never
invoked (no `subprocess.run` of its command line appears in the trace)
and the destination static directory is exactly as it was before the
run. -/
theorem C3_tsc_fail_skips_vite_and_dest (env : Env) (fs0 : FS)
    (h : env.tscRc.val ≠ 0) :
    Ev.exec "npx vite build" true ∉ (result env fs0).evs ∧
    (result env fs0).fs.static = fs0.static := by
  rw [result_tsc_fail env fs0 h]
  exact ⟨by simp, rfl⟩

/-- Witness for C3 at a concrete failing type-check over a stale
destination. -/
theorem C3_witness :
    envTscFail.tscRc.val ≠ 0 ∧
    (Ev.exec "npx vite build" true ∉ (result envTscFail fsStale).evs ∧
     (result envTscFail fsStale).fs.static = fsStale.static) :=
  ⟨by decide, C3_tsc_fail_skips_vite_and_dest envTscFail fsStale (by decide)⟩

/-- Claim C4: if the bundler step exits non-zero (after a successful
type-check), neither the recursive delete nor the recursive copy happens
and the destination static directory is exactly as it was before the
run. -/
theorem C4_vite_fail_dest_untouched (env : Env) (fs0 : FS)
    (h0 : env.tscRc.val = 0) (h1 : env.viteRc.val ≠ 0) :
    (result env fs0).fs.static = fs0.static ∧
    Ev.removeTree ∉ (result env fs0).evs ∧
    Ev.copyTree ∉ (result env fs0).evs := by
  rw [result_vite_fail env fs0 h0 h1]
  exact ⟨rfl, by simp, by simp⟩

/-- Witness for C4 at a concrete failing bundler run over a stale
destination. -/
theorem C4_witness :
    envViteFail.tscRc.val = 0 ∧ envViteFail.viteRc.val ≠ 0 ∧
    ((result envViteFail fsStale).fs.static = fsStale.static ∧
     Ev.removeTree ∉ (result envViteFail fsStale).evs ∧
     Ev.copyTree ∉ (result envViteFail fsStale).evs) :=
  ⟨rfl, by decide, C4_vite_fail_dest_untouched envViteFail fsStale rfl (by decide)⟩

/-- Claim C5: for every successful run, the destination static directory
exists afterwards, and any file of its prior contents that is not part
of the build output is gone. -/
theorem C5_dest_created_prior_contents_gone (env : Env) (fs0 : FS)
    (h : (result env fs0).pc = Pc.done) :
    ((result env fs0).fs.static).isSome = true ∧
    ∀ d p, fs0.static = some d → p ∈ d → p ∉ env.distAfterVite →
      ∀ d2, (result env fs0).fs.static = some d2 → p ∉ d2 := by
  have hmain := result_done_fs env fs0 h
  refine ⟨by rw [hmain]; rfl, ?_⟩
  intro d p _ _ hnp d2 hd2
  rw [hmain] at hd2
  cases hd2
  exact hnp

/-- Witness for C5 at a concrete successful run over a stale destination. -/
theorem C5_witness :
    (result envOk fsStale).pc = Pc.done ∧
    (((result envOk fsStale).fs.static).isSome = true ∧
     ∀ d p, fsStale.static = some d → p ∈ d → p ∉ envOk.distAfterVite →
       ∀ d2, (result envOk fsStale).fs.static = some d2 → p ∉ d2) :=
  ⟨by decide, C5_dest_created_prior_contents_gone envOk fsStale (by decide)⟩

/-- Claim C6: whenever an external step fails (the type-check, or the
bundler after a successful type-check), the orchestrator prints
`Command failed: <command line>` to stderr and exits with that
subprocess's own exit status. -/
theorem C6_failure_reports_and_mirrors_status (env : Env) (fs0 : FS) :
    (env.tscRc.val ≠ 0 →
       Ev.errOut "Command failed: npx tsc -b" ∈ (result env fs0).evs ∧
       finalExit env fs0 = env.tscRc.val) ∧
    (env.tscRc.val = 0 → env.viteRc.val ≠ 0 →
       Ev.errOut "Command failed: npx vite build" ∈ (result env fs0).evs ∧
       finalExit env fs0 = env.viteRc.val) := by
  constructor
  · intro h
    constructor
    · rw [result_tsc_fail env fs0 h]
      simp
    · simp [finalExit, result_tsc_fail env fs0 h]
  · intro h0 h1
    constructor
    · rw [result_vite_fail env fs0 h0 h1]
      simp
    · simp [finalExit, result_vite_fail env fs0 h0 h1]

/-- Witness for C6: a failing type-check run (status 2) and a failing
bundler run (status 3). -/
theorem C6_witness :
    (Ev.errOut "Command failed: npx tsc -b" ∈ (result envTscFail fsFresh).evs ∧
     finalExit envTscFail fsFresh = envTscFail.tscRc.val) ∧
    (Ev.errOut "Command failed: npx vite build" ∈ (result envViteFail fsFresh).evs ∧
     finalExit envViteFail fsFresh = envViteFail.viteRc.val) :=
  ⟨(C6_failure_reports_and_mirrors_status envTscFail fsFresh).1 (by decide),
   (C6_failure_reports_and_mirrors_status envViteFail fsFresh).2 (by decide) (by decide)⟩

/-- Any single step that lands on `Pc.afterRm` (the point between the
recursive delete and the recursive copy) leaves the destination
directory absent. -/
lemma step_into_afterRm (env : Env) (c c2 : Config)
    (h : step env c = some c2) (hpc : c2.pc = Pc.afterRm) :
    c2.fs.static = none := by
  cases hcp : c.pc with
  | start =>
      by_cases hr : env.tscRc.val ≠ 0 <;>
        · simp [step, hcp, run_command, hr] at h
          subst h
          simp at hpc
  | afterTsc =>
      by_cases hr : env.viteRc.val ≠ 0 <;>
        · simp [step, hcp, run_command, hr] at h
          subst h
          simp at hpc
  | afterVite =>
      by_cases hss : c.fs.static.isSome = true
      · cases hre : env.rmtreeErr with
        | some e =>
            simp [step, hcp, hss, hre] at h
            subst h
            simp at hpc
        | none =>
            simp [step, hcp, hss, hre] at h
            subst h
            rfl
      · simp [step, hcp, hss] at h
        subst h
        simpa using hss
  | afterRm =>
      cases hce : env.copyErr with
      | some e =>
          simp [step, hcp, hce] at h
          subst h
          simp at hpc
      | none =>
          cases hcd : c.fs.dist with
          | none =>
              simp [step, hcp, hce, hcd] at h
              subst h
              simp at hpc
          | some d =>
              simp [step, hcp, hce, hcd] at h
              subst h
              simp at hpc
  | done => simp [step, hcp] at h
  | failedCmd rc => simp [step, hcp] at h
  | raised e => simp [step, hcp] at h

/-- The `afterRm` invariant is preserved by running the machine any
number of steps. -/
lemma runFrom_afterRm (env : Env) (n : Nat) (c : Config)
    (hc : c.pc = Pc.afterRm → c.fs.static = none) :
    (runFrom env n c).pc = Pc.afterRm → (runFrom env n c).fs.static = none := by
  induction n generalizing c with
  | zero => exact hc
  | succ n ih =>
      unfold runFrom
      cases hstep : step env c with
      | none => exact hc
      | some c2 => exact ih c2 (step_into_afterRm env c c2 hstep)

/-- Claim C7: the delete-then-copy sequence is not atomic — at every
point of every run where the destination directory has been removed
(program counter `afterRm`, after step 3 and before the recursive copy
of step 4), the destination directory is absent, so a process that dies
there leaves it absent/empty. -/
theorem C7_crash_between_delete_and_copy (env : Env) (fs0 : FS) (n : Nat)
    (h : (runFrom env n (initConfig fs0)).pc = Pc.afterRm) :
    (runFrom env n (initConfig fs0)).fs.static = none :=
  runFrom_afterRm env n (initConfig fs0) (by intro hpc; simp [initConfig] at hpc) h

/-- Witness for C7: after exactly three steps of a successful run over a
stale destination, the machine sits between delete and copy and the
destination is absent. -/
theorem C7_witness :
    (runFrom envOk 3 (initConfig fsStale)).pc = Pc.afterRm ∧
    (runFrom envOk 3 (initConfig fsStale)).fs.static = none :=
  ⟨by decide, C7_crash_between_delete_and_copy envOk fsStale 3 (by decide)⟩

/-- Claim C8: filesystem errors raised by the recursive delete or the
recursive copy are not caught by the orchestrator — the run ends in an
uncaught exception carrying that error, the process exit status is the
non-zero uncaught-exception status 1, and the completion message is
never printed. -/
theorem C8_fs_errors_uncaught (env : Env) (fs0 : FS) (e : FsErr)
    (h0 : env.tscRc.val = 0) (h1 : env.viteRc.val = 0)
    (h : (fs0.static.isSome = true ∧ env.rmtreeErr = some e) ∨
         ((fs0.static = none ∨ env.rmtreeErr = none) ∧ env.copyErr = some e)) :
    (result env fs0).pc = Pc.raised e ∧ finalExit env fs0 = 1 ∧
      Ev.out "Build complete." ∉ (result env fs0).evs := by
  rcases h with ⟨hss, hr⟩ | ⟨hsr, hc⟩
  · rcases hs : fs0.static with _ | d
    · rw [hs] at hss
      simp at hss
    · refine ⟨?_, ?_, ?_⟩
      · rw [result_rm_fail env fs0 d e h0 h1 hs hr]
      · simp [finalExit, result_rm_fail env fs0 d e h0 h1 hs hr]
      · rw [result_rm_fail env fs0 d e h0 h1 hs hr]
        simp
  · rcases hs : fs0.static with _ | d
    · refine ⟨?_, ?_, ?_⟩
      · rw [result_copy_fail_static_none env fs0 e h0 h1 hs hc]
      · simp [finalExit, result_copy_fail_static_none env fs0 e h0 h1 hs hc]
      · rw [result_copy_fail_static_none env fs0 e h0 h1 hs hc]
        simp
    · rcases hsr with hnone | hrnone
      · rw [hs] at hnone
        simp at hnone
      · refine ⟨?_, ?_, ?_⟩
        · rw [result_copy_fail_static_some env fs0 d e h0 h1 hs hrnone hc]
        · simp [finalExit, result_copy_fail_static_some env fs0 d e h0 h1 hs hrnone hc]
        · rw [result_copy_fail_static_some env fs0 d e h0 h1 hs hrnone hc]
          simp

/-- Witness for C8: a run over a stale destination in which the
recursive delete raises `rmtree: permission denied`. -/
theorem C8_witness :
    (result envRmFail fsStale).pc = Pc.raised "rmtree: permission denied" ∧
    finalExit envRmFail fsStale = 1 ∧
    Ev.out "Build complete." ∉ (result envRmFail fsStale).evs :=
  C8_fs_errors_uncaught envRmFail fsStale "rmtree: permission denied"
    (by decide) (by decide) (Or.inl ⟨by decide, rfl⟩)

/-- Claim C9: running the orchestrator twice in the same environment
(both steps succeed, same build output, no filesystem errors) leaves the
destination directory identical after each of the two runs. -/
theorem C9_idempotent_runs (env : Env) (fs0 : FS)
    (h0 : env.tscRc.val = 0) (h1 : env.viteRc.val = 0)
    (hr : env.rmtreeErr = none) (hc : env.copyErr = none) :
    (result env (result env fs0).fs).fs.static = (result env fs0).fs.static ∧
    (result env fs0).fs.static = some env.distAfterVite := by
  rcases hs : fs0.static with _ | d
  · rw [result_ok_static_none env fs0 h0 h1 hs hc]
    rw [result_ok_static_some env _ env.distAfterVite h0 h1 rfl hr hc]
    exact ⟨rfl, rfl⟩
  · rw [result_ok_static_some env fs0 d h0 h1 hs hr hc]
    rw [result_ok_static_some env _ env.distAfterVite h0 h1 rfl hr hc]
    exact ⟨rfl, rfl⟩

/-- Witness for C9 at a concrete error-free double run. -/
theorem C9_witness :
    (result envOk (result envOk fsStale).fs).fs.static =
      (result envOk fsStale).fs.static ∧
    (result envOk fsStale).fs.static = some envOk.distAfterVite :=
  C9_idempotent_runs envOk fsStale rfl rfl rfl rfl

/-- Claim C10: `run_command` joins its argument list with single spaces
into one string and hands that string to `subprocess.run` with
`shell=True` — the subprocess event in its trace is exactly the
space-joined command line with the shell flag set, never a literal argv
vector. -/
theorem C10_shell_join (cmd : List String) (rc : Fin 256) :
    Ev.exec (String.intercalate " " cmd) true ∈ (run_command cmd rc).1 ∧
    ∀ line sh, Ev.exec line sh ∈ (run_command cmd rc).1 →
      line = String.intercalate " " cmd ∧ sh = true := by
  unfold run_command
  by_cases h : rc.val ≠ 0 <;> simp [h]

/-- Witness for C10: the type-check command list joins to its shell
command line. -/
theorem C10_witness :
    "npx tsc -b" = String.intercalate " " ["npx", "tsc", "-b"] ∧ true = true :=
  (C10_shell_join ["npx", "tsc", "-b"] 0).2 "npx tsc -b" true (by decide)
